import Mathlib

/-!
Shallow embedding of the `keycloakAuth` Django/DRF app
(`authentication.py`, `exceptions.py`, `serializers.py`, `views.py`)
and proofs about the behaviour its specification claims.

Python strings are `String`, dictionaries are association lists
`List (String × PyVal)`, raised exceptions are the `Except PyExc`
error channel, and the external Keycloak client
(`kc_openID_services`, not part of the package's source) is an
explicit function parameter so theorems quantify over its outcomes.
-/

namespace KeycloakAuth

/-- Characters Python's `str.split()` (no separator) treats as whitespace. -/
def pyIsSpace (c : Char) : Bool :=
  c = ' ' || c = '\t' || c = '\n' || c = '\r' || c = Char.ofNat 11 || c = Char.ofNat 12

/-- Accumulating worker for Python `str.split()`: splits on runs of
whitespace and discards empty pieces.  `acc` holds the current word
reversed. -/
def pyWordsAux : List Char → List Char → List (List Char)
  | [], acc => if acc.isEmpty then [] else [acc.reverse]
  | c :: cs, acc =>
    if pyIsSpace c then
      if acc.isEmpty then pyWordsAux cs []
      else acc.reverse :: pyWordsAux cs []
    else pyWordsAux cs (c :: acc)

/-- Python `s.split()` with no separator. -/
def pyWords (s : String) : List String :=
  (pyWordsAux s.data []).map (fun l => ⟨l⟩)

/-- Python `s.split("//")`: splits on each leftmost non-overlapping
occurrence of the two-character separator `//`, keeping empty pieces. -/
def pySplitDSlash : List Char → List Char → List (List Char)
  | '/' :: '/' :: rest, acc => acc.reverse :: pySplitDSlash rest []
  | c :: rest, acc => pySplitDSlash rest (c :: acc)
  | [], acc => [acc.reverse]

/-- Python `s.split("//")` on a `String`. -/
def pySplit2 (s : String) : List String :=
  (pySplitDSlash s.data []).map (fun l => ⟨l⟩)

/-- Python `s.startswith(p)`. -/
def pyStartswith (p s : String) : Bool :=
  p.data.isPrefixOf s.data

/-- The profile-picture file object stored on a profile row: Django's
`FieldFile`, whose `url` attribute may be unavailable (`hasattr` false). -/
structure PicFile where
  url : Option String
deriving DecidableEq, Repr

/-- Python values appearing in the request/response dictionaries of this app. -/
inductive PyVal where
  | str (s : String)
  | int (n : Int)
  | bool (b : Bool)
  | time (t : Nat)
  | file (f : PicFile)
  | none
deriving DecidableEq, Repr

/-- Exceptions that the embedded code can raise.  `keycloakPost` is
`keycloak.exceptions.KeycloakPostError` (the spec's GrantError) and
`keycloakAuth` is `KeycloakAuthenticationError` (the spec's
AuthenticationError); in the `python-keycloak` library these are sibling
classes, neither a subclass of the other. -/
inductive PyExc where
  | keycloakPost (msg : String)
  | keycloakAuth (msg : String)
  | authenticationFailed (msg : String)
  | indexError
  | typeErrorNotSubscriptable
  | doesNotExist
  | otherExc (msg : String)
deriving DecidableEq, Repr

/-- Python `str(error)` for each modelled exception. -/
def PyExc.pyStr : PyExc → String
  | .keycloakPost m => m
  | .keycloakAuth m => m
  | .authenticationFailed m => m
  | .indexError => "list index out of range"
  | .typeErrorNotSubscriptable => "'KeycloakUser' object is not subscriptable"
  | .doesNotExist => "UserProfile matching query does not exist."
  | .otherExc m => m

/-- `authentication.py` line 11 / 40: the literal prefix tested by
`auth_header.startswith('Bearer ')`. -/
def bearerMarker : String := "Bearer "

/-- `authentication.py` line 13 / 43: `auth_header.split()[1]`, the second
whitespace-delimited word; Python raises `IndexError` when it is absent. -/
def secondWord (s : String) : Option String :=
  (pyWords s).get? 1

/-- The message of the `AuthenticationFailed` raised by
`KeycloakAuthentication.authenticate`. -/
def authFailedMsg : String :=
  "Incorrect authentication credentials. Either the authentication token is not valid or expired."

/-- A userinfo mapping returned by the IdP. -/
abbrev Userinfo := List (String × PyVal)

/-- The external `kc_openID_services.get_user_info`: resolves an access
token to a userinfo mapping or raises. -/
abbrev IdpUserinfo := String → Except PyExc Userinfo

/-- `authentication.py` `KeycloakUser`: wraps the userinfo mapping. -/
structure KeycloakUser where
  userinfo : Userinfo
deriving DecidableEq, Repr

/-- `KeycloakAuthentication.authenticate` (`authentication.py` lines 9-21).
Returns `ok none` for an anonymous request, `ok (some user)` on success,
and `error`s model uncaught raises.  Note that `auth_header.split()[1]`
is evaluated before the `try:` block, so its `IndexError` is not converted
to `AuthenticationFailed`. -/
def authenticate (idp : IdpUserinfo) (header : Option String) :
    Except PyExc (Option KeycloakUser) :=
  match header with
  | Option.none => .ok Option.none
  | some h =>
    -- `if not auth_header or not auth_header.startswith('Bearer '): return None`
    -- (an empty string is falsy and also fails the prefix test)
    if ¬ pyStartswith bearerMarker h then .ok Option.none
    else
      match secondWord h with
      | Option.none => .error .indexError
      | some tok =>
        match idp tok with
        | .ok ui => .ok (some ⟨ui⟩)
        | .error _ => .error (.authenticationFailed authFailedMsg)

/-- `IsKeycloakAuthenticated.has_permission` (`authentication.py` lines
37-50).  Same extraction as `authenticate`; the bare `except:` swallows
the IdP failure into `false`, but `auth_header.split()[1]` is again
outside the `try:`. -/
def has_permission (idp : IdpUserinfo) (header : Option String) :
    Except PyExc Bool :=
  match header with
  | Option.none => .ok false
  | some h =>
    if ¬ pyStartswith bearerMarker h then .ok false
    else
      match secondWord h with
      | Option.none => .error .indexError
      | some tok =>
        match idp tok with
        | .ok _ => .ok true
        | .error _ => .ok false

/-- Result of a Python attribute access on a `KeycloakUser`.  Besides the
values stored in (or absent from) the mapping, the access can hit the
instance attribute `userinfo` itself or the `is_authenticated` property,
both of which are found by normal lookup before `__getattr__` runs. -/
inductive AttrOut where
  | val (v : PyVal)
  | dictVal (d : Userinfo)
deriving DecidableEq, Repr

/-- Attribute access `u.item` on `KeycloakUser` (`authentication.py` lines
53-62): the instance attribute `userinfo` and the property
`is_authenticated` are found by ordinary lookup; only otherwise does
`__getattr__` run `self.userinfo.get(item, None)`. -/
def kcUserGetattr (u : KeycloakUser) (item : String) : AttrOut :=
  if item = "userinfo" then .dictVal u.userinfo
  else if item = "is_authenticated" then .val (.bool true)
  else .val ((u.userinfo.lookup item).getD .none)

/-- Python subscription `u[key]` on a `KeycloakUser`.  The class defines
`__getattr__` but no `__getitem__`, and implicit special-method lookup
does not fall back to `__getattr__`, so every subscription raises
`TypeError: 'KeycloakUser' object is not subscriptable`. -/
def kcUserSubscript (_u : KeycloakUser) (_key : String) : Except PyExc PyVal :=
  .error .typeErrorNotSubscriptable

/-- One cookie as produced by `response.set_cookie` in
`KeycloakCallbackView._set_token_cookies`. -/
structure Cookie where
  key : String
  value : String
  maxAge : Nat
  secure : Bool
  httponly : Bool
  samesite : String
  domain : String
deriving DecidableEq, Repr

/-- An HTTP response produced by the views: a DRF `Response` with a status
and a JSON body of string pairs, or an `HttpResponseRedirect` carrying
cookies. -/
inductive HttpOut where
  | json (status : Nat) (body : List (String × String))
  | redirect (location : String) (cookies : List Cookie)
deriving DecidableEq, Repr

/-- The status code of a response. -/
def HttpOut.status : HttpOut → Nat
  | .json s _ => s
  | .redirect _ _ => 302

/-- `KeycloakBaseView.handle_keycloak_error` (`exceptions.py` lines 11-30):
`isinstance(error, KeycloakPostError)` → 401 "Invalid grant or token.";
`isinstance(error, KeycloakAuthenticationError)` → 401 "Authentication
failed."; anything else → 500 with `str(error)` in the body. -/
def handle_keycloak_error (e : PyExc) : HttpOut :=
  match e with
  | .keycloakPost _ => .json 401 [("detail", "Invalid grant or token.")]
  | .keycloakAuth _ => .json 401 [("detail", "Authentication failed.")]
  | _ => .json 500 [("detail", "An unexpected error occurred"), ("error", e.pyStr)]

/-- The validated data of `TokenSerializer` / `RefreshTokenSerializer`
(`serializers.py` lines 5-18): five required fields, `CharField`s
non-blank strings and `IntegerField`s integers. -/
structure TokenData where
  access_token : String
  expires_in : Int
  refresh_token : String
  refresh_expires_in : Int
  token_type : String
deriving DecidableEq, Repr

/-- `TokenSerializer(data=tokens).is_valid()` plus `validated_data`:
every declared field must be present with the declared type (`CharField`
rejects blank strings by default); undeclared keys are dropped. -/
def tokenSerializerValidate (d : List (String × PyVal)) : Option TokenData :=
  match d.lookup "access_token", d.lookup "expires_in", d.lookup "refresh_token",
        d.lookup "refresh_expires_in", d.lookup "token_type" with
  | some (.str a), some (.int e), some (.str r), some (.int re), some (.str t) =>
    if a ≠ "" ∧ r ≠ "" ∧ t ≠ "" then some ⟨a, e, r, re, t⟩ else Option.none
  | _, _, _, _, _ => Option.none

/-- `validated_data.items()` of a valid `TokenSerializer`, in field
declaration order; `set_cookie` stringifies the values. -/
def tokenItems (td : TokenData) : List (String × String) :=
  [("access_token", td.access_token),
   ("expires_in", toString td.expires_in),
   ("refresh_token", td.refresh_token),
   ("refresh_expires_in", toString td.refresh_expires_in),
   ("token_type", td.token_type)]

/-- `KeycloakCallbackView._set_token_cookies` (`views.py` lines 90-106):
one cookie per validated-data item, `max_age=3600`, `secure`, `httponly`,
`samesite='Lax'`, `domain='.' + settings.BASE_FRONTEND_URL.split("//")[1]`.
When the configured URL has no `//` the subscript `[1]` raises
`IndexError` (inside the caller's `try:`). -/
def set_token_cookies (frontendURL : String) (td : TokenData) :
    Except PyExc (List Cookie) :=
  match (pySplit2 frontendURL).get? 1 with
  | Option.none => .error .indexError
  | some host =>
    .ok ((tokenItems td).map (fun kv =>
      ⟨kv.1, kv.2, 3600, true, true, "Lax", "." ++ host⟩))

/-- The external `kc_openID_services` calls that return a token dictionary
(`get_access_token_with_code`, `get_refresh_token`,
`get_token_with_user_and_pass`). -/
abbrev IdpTokens := String → Except PyExc (List (String × PyVal))

/-- `KeycloakCallbackView.get` (`views.py` lines 65-88): missing or empty
`code` → 400 before any IdP call; then the `try:` covers the token
exchange, serializer validation and cookie setting, with failures mapped
by `handle_keycloak_error`.  (The body of the serializer-errors 400
response is abstracted to a marker pair.) -/
def callbackGet (exchange : IdpTokens) (frontendURL : String)
    (code : Option String) : HttpOut :=
  match code with
  | Option.none => .json 400 [("error", "Missing code parameter")]
  | some c =>
    if c = "" then .json 400 [("error", "Missing code parameter")]
    else
      match exchange c with
      | .error e => handle_keycloak_error e
      | .ok tokens =>
        match tokenSerializerValidate tokens with
        | Option.none => .json 400 [("errors", "serializer errors")]
        | some td =>
          match set_token_cookies frontendURL td with
          | .error e => handle_keycloak_error e
          | .ok cs => .redirect frontendURL cs

/-- `RefreshTokenRequestSerializer` (`serializers.py` lines 21-22): one
required non-blank `CharField` `refresh_token`. -/
def refreshRequestValidate (body : List (String × PyVal)) : Option String :=
  match body.lookup "refresh_token" with
  | some (.str t) => if t ≠ "" then some t else Option.none
  | _ => Option.none

/-- `RefreshTokenView.post` (`views.py` lines 123-147). -/
def refreshPost (refresh : IdpTokens) (body : List (String × PyVal)) : HttpOut :=
  match refreshRequestValidate body with
  | Option.none => .json 400 [("errors", "serializer errors")]
  | some t =>
    match refresh t with
    | .error e => handle_keycloak_error e
    | .ok tokens =>
      match tokenSerializerValidate tokens with
      | Option.none => .json 400 [("errors", "serializer errors")]
      | some td => .json 200 (tokenItems td)

/-- `LogoutSerializer` (`serializers.py` lines 44-45): required `CharField`
with `min_length=1` (blank input is already rejected by `allow_blank=False`). -/
def logoutValidate (body : List (String × PyVal)) : Option String :=
  match body.lookup "refresh_token" with
  | some (.str t) => if t ≠ "" ∧ 1 ≤ t.length then some t else Option.none
  | _ => Option.none

/-- The external `kc_openID_services.logout`. -/
abbrev IdpLogout := String → Except PyExc Unit

/-- `LogOutView.post` (`views.py` lines 193-210): note that the success
branch passes a `detail` body together with status 204. -/
def logoutPost (idpLogout : IdpLogout) (body : List (String × PyVal)) : HttpOut :=
  match logoutValidate body with
  | Option.none => .json 400 [("errors", "serializer errors")]
  | some t =>
    match idpLogout t with
    | .ok _ => .json 204 [("detail", "User logged out successfully.")]
    | .error e => handle_keycloak_error e

/-- The persisted `UserProfile` row, with the fields named by
`UserProfileSerializer` (`serializers.py` lines 58-63) and the `email`
set by `perform_create`; timestamps are abstract instants. -/
structure Profile where
  uuid : String
  email : String
  profilePicture : Option PicFile
  createdDate : Nat
  updatedDate : Nat
deriving DecidableEq, Repr

/-- Applying one keyword/validated-data item to a profile row, as DRF's
`ModelSerializer.save` does via `setattr`. -/
def profileSetField (p : Profile) (kv : String × PyVal) : Profile :=
  match kv with
  | ("uuid", .str s) => { p with uuid := s }
  | ("email", .str s) => { p with email := s }
  | ("profilePicture", .file f) => { p with profilePicture := some f }
  | ("profilePicture", .none) => { p with profilePicture := Option.none }
  | ("createdDate", .time t) => { p with createdDate := t }
  | ("updatedDate", .time t) => { p with updatedDate := t }
  | _ => p

/-- `serializer.save(**kwargs)`: the validated data merged with the save
keyword arguments (which win), applied to the row field by field. -/
def profileSave (p : Profile) (data : List (String × PyVal)) : Profile :=
  data.foldl profileSetField p

/-- `UserProfileSerializer`'s `validated_data` for a request body:
`uuid`, `createdDate` and `updatedDate` are `read_only_fields`, and
`email` is not declared at all, so only `profilePicture` survives
validation no matter what the caller supplied. -/
def userProfileValidatedData (body : List (String × PyVal)) :
    List (String × PyVal) :=
  match body.lookup "profilePicture" with
  | some v => [("profilePicture", v)]
  | Option.none => []

/-- A fresh model instance before `perform_create`'s save keywords are
applied (concrete defaults; the claims only depend on the applied fields). -/
def newProfile (now : Nat) : Profile :=
  ⟨"", "", Option.none, now, now⟩

/-- `UserProfileViewSet.perform_create` (`views.py` lines 271-277):
`serializer.save(uuid=self.request.user['sub'],
email=self.request.user['email'])`.  `request.user` is the
`KeycloakUser` attached by the authenticator, so both subscriptions go
through `kcUserSubscript`. -/
def perform_create (user : KeycloakUser) (body : List (String × PyVal))
    (now : Nat) : Except PyExc Profile :=
  match kcUserSubscript user "sub" with
  | .error e => .error e
  | .ok subV =>
    match kcUserSubscript user "email" with
    | .error e => .error e
    | .ok emailV =>
      .ok (profileSave (newProfile now)
        (userProfileValidatedData body ++ [("uuid", subV), ("email", emailV)]))

/-- `UserProfileViewSet.perform_update` (`views.py` lines 279-283):
`serializer.save(updatedDate=timezone.now())` on the existing row. -/
def perform_update (inst : Profile) (body : List (String × PyVal))
    (now : Nat) : Profile :=
  profileSave inst (userProfileValidatedData body ++ [("updatedDate", .time now)])

/-- The profile table keyed by `uuid`; the spec makes `uuid` a unique key,
so `UserProfile.objects.get(uuid=...)` is a partial lookup. -/
abbrev ProfileStore := String → Option Profile

/-- `UserProfile.objects.get(uuid=sub)`: raises `DoesNotExist` when no row
matches. -/
def objectsGet (store : ProfileStore) (sub : String) : Except PyExc Profile :=
  match store sub with
  | Option.none => .error .doesNotExist
  | some p => .ok p

/-- `UserInfoSerializer.get_profile_picture` (`serializers.py` lines
33-41): looks the row up by the identity's `sub`, returns the picture's
`url` when the field is truthy and has one, `None` otherwise, and catches
`DoesNotExist`. -/
def get_profile_picture (store : ProfileStore) (sub : String) :
    Except PyExc (Option String) :=
  match objectsGet store sub with
  | .error .doesNotExist => .ok Option.none
  | .error e => .error e
  | .ok p =>
    match p.profilePicture with
    | Option.none => .ok Option.none
    | some pic =>
      match pic.url with
      | Option.none => .ok Option.none
      | some u => .ok (some u)

/-- Whether a call into the IdP client succeeded. -/
def idpOk (r : Except PyExc Userinfo) : Bool :=
  match r with
  | .ok _ => true
  | .error _ => false

end KeycloakAuth

namespace KeycloakAuth

/-- C1 (amended): `authenticate` returns the anonymous result without
raising whenever the Authorization header is absent or does not start
with `Bearer `; but a header that does start with `Bearer ` while
carrying no token word raises an uncaught `IndexError`, because
`auth_header.split()[1]` runs before the `try:` block. -/
theorem authenticate_anonymous_on_malformed_amended (idp : IdpUserinfo)
    (header : Option String) :
    (header = Option.none → authenticate idp header = .ok Option.none) ∧
    (∀ h, header = some h → pyStartswith bearerMarker h = false →
      authenticate idp header = .ok Option.none) ∧
    (∀ h, header = some h → pyStartswith bearerMarker h = true →
      secondWord h = Option.none →
      authenticate idp header = .error .indexError) := by
  refine ⟨?_, ?_, ?_⟩
  · rintro rfl
    rfl
  · rintro h rfl hpre
    simp [authenticate, hpre]
  · rintro h rfl hpre hsw
    simp [authenticate, hpre, hsw]

/-- Witness for C1's amended theorem at concrete headers. -/
theorem authenticate_anonymous_on_malformed_amended_w :
    authenticate (fun _ => .ok []) Option.none = .ok Option.none ∧
    authenticate (fun _ => .ok []) (some "Basic abc") = .ok Option.none ∧
    authenticate (fun _ => .ok []) (some "Bearer   ") = .error .indexError :=
  ⟨(authenticate_anonymous_on_malformed_amended _ _).1 rfl,
   (authenticate_anonymous_on_malformed_amended _ _).2.1 "Basic abc" rfl (by rfl),
   (authenticate_anonymous_on_malformed_amended _ _).2.2 "Bearer   " rfl
     (by rfl) (by rfl)⟩

/-- C1 counterexample: the header `"Bearer "` is malformed (it carries no
token), yet `authenticate` raises an `IndexError` instead of returning
the anonymous result. -/
theorem authenticate_raises_on_tokenless_bearer :
    authenticate (fun _ => .ok []) (some "Bearer ") = .error .indexError ∧
    (Except.error .indexError : Except PyExc (Option KeycloakUser)) ≠
      .ok Option.none :=
  ⟨by rfl, fun h => Except.noConfusion h⟩

/-- C2 (amended): `has_permission` returns `false` for an absent or
non-`Bearer ` header and, when a token word is present, returns exactly
whether the userinfo call succeeds — swallowing every IdP failure into
`false`; but a header that starts with `Bearer ` with no token word
raises an uncaught `IndexError` rather than returning `false`. -/
theorem has_permission_gate_amended (idp : IdpUserinfo) (header : Option String) :
    (header = Option.none → has_permission idp header = .ok false) ∧
    (∀ h, header = some h → pyStartswith bearerMarker h = false →
      has_permission idp header = .ok false) ∧
    (∀ h tok, header = some h → pyStartswith bearerMarker h = true →
      secondWord h = some tok →
      has_permission idp header = .ok (idpOk (idp tok))) ∧
    (∀ h, header = some h → pyStartswith bearerMarker h = true →
      secondWord h = Option.none →
      has_permission idp header = .error .indexError) := by
  refine ⟨?_, ?_, ?_, ?_⟩
  · rintro rfl
    rfl
  · rintro h rfl hpre
    simp [has_permission, hpre]
  · rintro h tok rfl hpre hsw
    cases hi : idp tok <;> simp [has_permission, hpre, hsw, hi, idpOk]
  · rintro h rfl hpre hsw
    simp [has_permission, hpre, hsw]

/-- Witness for C2's amended theorem at concrete headers and a concrete
IdP behaviour. -/
theorem has_permission_gate_amended_w :
    has_permission (fun t => if t = "good" then .ok [] else .error (.keycloakAuth "x"))
      Option.none = .ok false ∧
    has_permission (fun t => if t = "good" then .ok [] else .error (.keycloakAuth "x"))
      (some "Basic abc") = .ok false ∧
    has_permission (fun t => if t = "good" then .ok [] else .error (.keycloakAuth "x"))
      (some "Bearer good") = .ok true ∧
    has_permission (fun t => if t = "good" then .ok [] else .error (.keycloakAuth "x"))
      (some "Bearer bad") = .ok false ∧
    has_permission (fun t => if t = "good" then .ok [] else .error (.keycloakAuth "x"))
      (some "Bearer  ") = .error .indexError :=
  ⟨(has_permission_gate_amended _ _).1 rfl,
   (has_permission_gate_amended _ _).2.1 "Basic abc" rfl (by rfl),
   (has_permission_gate_amended _ _).2.2.1 "Bearer good" "good" rfl (by rfl) (by rfl),
   (has_permission_gate_amended _ _).2.2.1 "Bearer bad" "bad" rfl (by rfl) (by rfl),
   (has_permission_gate_amended _ _).2.2.2 "Bearer  " rfl (by rfl) (by rfl)⟩

/-- C2 counterexample: on the header `"Bearer "` the permission check is
not a total boolean — it propagates an `IndexError` instead of returning
`false`. -/
theorem has_permission_raises_on_tokenless_bearer :
    has_permission (fun _ => .ok []) (some "Bearer ") = .error .indexError ∧
    (Except.error .indexError : Except PyExc Bool) ≠ .ok false ∧
    (Except.error .indexError : Except PyExc Bool) ≠ .ok true :=
  ⟨by rfl, fun h => Except.noConfusion h, fun h => Except.noConfusion h⟩

/-- C3: the error translator maps a `KeycloakPostError` (GrantError) to
401 with detail "Invalid grant or token.", a `KeycloakAuthenticationError`
to 401 with detail "Authentication failed.", and every other error to 500
with `str(error)` in the body; consequently a refresh request whose
adapter call raises a GrantError answers 401 with the grant detail. -/
theorem error_translator_mapping :
    (∀ m, handle_keycloak_error (.keycloakPost m) =
      .json 401 [("detail", "Invalid grant or token.")]) ∧
    (∀ m, handle_keycloak_error (.keycloakAuth m) =
      .json 401 [("detail", "Authentication failed.")]) ∧
    (∀ e : PyExc, (∀ m, e ≠ .keycloakPost m) → (∀ m, e ≠ .keycloakAuth m) →
      handle_keycloak_error e =
        .json 500 [("detail", "An unexpected error occurred"), ("error", e.pyStr)]) ∧
    (∀ (refresh : IdpTokens) (body : List (String × PyVal)) (t m : String),
      refreshRequestValidate body = some t →
      refresh t = .error (.keycloakPost m) →
      refreshPost refresh body = .json 401 [("detail", "Invalid grant or token.")]) := by
  refine ⟨fun m => rfl, fun m => rfl, ?_, ?_⟩
  · intro e h1 h2
    cases e
    case keycloakPost m => exact absurd rfl (h1 m)
    case keycloakAuth m => exact absurd rfl (h2 m)
    all_goals rfl
  · intro refresh body t m hval herr
    simp [refreshPost, hval, herr, handle_keycloak_error]

/-- Witness for C3 at concrete errors and at the spec's refresh scenario
with body `refresh_token = "abc"`. -/
theorem error_translator_mapping_w :
    handle_keycloak_error (.keycloakPost "400: bad code") =
      .json 401 [("detail", "Invalid grant or token.")] ∧
    handle_keycloak_error (.keycloakAuth "401: bad credentials") =
      .json 401 [("detail", "Authentication failed.")] ∧
    handle_keycloak_error (.otherExc "boom") =
      .json 500 [("detail", "An unexpected error occurred"), ("error", "boom")] ∧
    refreshPost (fun _ => .error (.keycloakPost "invalid_grant"))
      [("refresh_token", .str "abc")] =
      .json 401 [("detail", "Invalid grant or token.")] :=
  ⟨error_translator_mapping.1 "400: bad code",
   error_translator_mapping.2.1 "401: bad credentials",
   error_translator_mapping.2.2.1 (.otherExc "boom")
     (fun m h => PyExc.noConfusion h) (fun m h => PyExc.noConfusion h),
   error_translator_mapping.2.2.2 (fun _ => .error (.keycloakPost "invalid_grant"))
     [("refresh_token", .str "abc")] "abc" "invalid_grant" (by rfl) (by rfl)⟩

/-- C4: when the code exchange yields a well-formed Token Bundle and the
configured frontend URL has a host after `//`, the callback sets exactly
the five bundle fields as cookies — each with max-age 3600, secure,
http-only, same-site Lax, domain the frontend host with a leading dot —
and redirects to the frontend base URL. -/
theorem callback_cookie_policy (exchange : IdpTokens)
    (frontendURL host code : String) (tokens : List (String × PyVal))
    (td : TokenData)
    (hhost : (pySplit2 frontendURL).get? 1 = some host)
    (hcode : code ≠ "")
    (hex : exchange code = .ok tokens)
    (hval : tokenSerializerValidate tokens = some td) :
    callbackGet exchange frontendURL (some code) =
      .redirect frontendURL
        [⟨"access_token", td.access_token, 3600, true, true, "Lax", "." ++ host⟩,
         ⟨"expires_in", toString td.expires_in, 3600, true, true, "Lax", "." ++ host⟩,
         ⟨"refresh_token", td.refresh_token, 3600, true, true, "Lax", "." ++ host⟩,
         ⟨"refresh_expires_in", toString td.refresh_expires_in, 3600, true, true,
           "Lax", "." ++ host⟩,
         ⟨"token_type", td.token_type, 3600, true, true, "Lax", "." ++ host⟩] := by
  have hhost2 : (pySplit2 frontendURL)[1]? = some host := by
    simpa [List.get?_eq_getElem?] using hhost
  simp [callbackGet, hcode, hex, hval, set_token_cookies, hhost2, tokenItems]

/-- Witness for C4 at a concrete exchange, bundle and frontend URL. -/
theorem callback_cookie_policy_w :
    callbackGet
      (fun _ => .ok [("access_token", .str "a"), ("expires_in", .int 1),
        ("refresh_token", .str "r"), ("refresh_expires_in", .int 2),
        ("token_type", .str "t")])
      "https://example.com" (some "xyz") =
      .redirect "https://example.com"
        [⟨"access_token", "a", 3600, true, true, "Lax", ".example.com"⟩,
         ⟨"expires_in", "1", 3600, true, true, "Lax", ".example.com"⟩,
         ⟨"refresh_token", "r", 3600, true, true, "Lax", ".example.com"⟩,
         ⟨"refresh_expires_in", "2", 3600, true, true, "Lax", ".example.com"⟩,
         ⟨"token_type", "t", 3600, true, true, "Lax", ".example.com"⟩] :=
  callback_cookie_policy _ "https://example.com" "example.com" "xyz" _
    ⟨"a", 1, "r", 2, "t"⟩ (by rfl) (by decide) (by rfl) (by rfl)

/-- C5 (code bug): `perform_create` subscripts `request.user['sub']` on a
`KeycloakUser`, which defines no `__getitem__`, so every authenticated
profile-creation attempt raises `TypeError` and no row carrying the
caller's subject id is ever stored. -/
theorem perform_create_always_type_error (u : KeycloakUser)
    (body : List (String × PyVal)) (now : Nat) :
    perform_create u body now = .error .typeErrorNotSubscriptable := rfl

/-- C6: a profile update always sets the stored row's `updatedDate` to
the current time, whatever the request body contained and whatever the
previous row looked like. -/
theorem perform_update_refreshes_updatedDate (inst : Profile)
    (body : List (String × PyVal)) (now : Nat) :
    (perform_update inst body now).updatedDate = now := by
  rcases h : body.lookup "profilePicture" with _ | v
  · simp [perform_update, profileSave, userProfileValidatedData, h, profileSetField]
  · cases v <;>
      simp [perform_update, profileSave, userProfileValidatedData, h, profileSetField]

/-- C7 (amended): for every attribute name other than the class's own
`userinfo` and `is_authenticated`, access on a `KeycloakUser` returns the
stored value when the name is in the userinfo mapping and the null value
when it is absent, never failing; `is_authenticated` always reads true. -/
theorem kcuser_attr_mapping_amended (u : KeycloakUser) (item : String)
    (h1 : item ≠ "userinfo") (h2 : item ≠ "is_authenticated") :
    (u.userinfo.lookup item = Option.none → kcUserGetattr u item = .val .none) ∧
    (∀ v, u.userinfo.lookup item = some v → kcUserGetattr u item = .val v) ∧
    kcUserGetattr u "is_authenticated" = .val (.bool true) := by
  refine ⟨fun h => ?_, fun v hv => ?_, rfl⟩
  · simp [kcUserGetattr, h1, h2, h]
  · simp [kcUserGetattr, h1, h2, hv]

/-- Witness for C7's amended theorem at a concrete user, with one absent
and one present attribute name. -/
theorem kcuser_attr_mapping_amended_w :
    kcUserGetattr ⟨[("sub", PyVal.str "u1")]⟩ "missing" = .val .none ∧
    kcUserGetattr ⟨[("sub", PyVal.str "u1")]⟩ "sub" = .val (.str "u1") ∧
    kcUserGetattr ⟨[("sub", PyVal.str "u1")]⟩ "is_authenticated" = .val (.bool true) :=
  ⟨(kcuser_attr_mapping_amended ⟨[("sub", PyVal.str "u1")]⟩ "missing"
      (by decide) (by decide)).1 (by rfl),
   (kcuser_attr_mapping_amended ⟨[("sub", PyVal.str "u1")]⟩ "sub"
      (by decide) (by decide)).2.1 _ (by rfl),
   (kcuser_attr_mapping_amended ⟨[("sub", PyVal.str "u1")]⟩ "sub"
      (by decide) (by decide)).2.2⟩

/-- C7 counterexample: the name `is_authenticated` can be present in the
userinfo mapping with a stored value of false, yet attribute access
returns true — normal lookup finds the property before `__getattr__`
consults the mapping, so a name present in the mapping does not always
yield its stored value. -/
theorem kcuser_attr_shadowed_by_property :
    ([("is_authenticated", PyVal.bool false)] : Userinfo).lookup "is_authenticated" =
      some (.bool false) ∧
    kcUserGetattr ⟨[("is_authenticated", PyVal.bool false)]⟩ "is_authenticated" =
      .val (.bool true) ∧
    AttrOut.val (.bool true) ≠ .val (.bool false) :=
  ⟨by rfl, by rfl, by decide⟩

/-- C8: the callback answers 400 on a missing or empty `code` with a
result independent of the IdP adapter (the adapter is a free parameter of
both 400 conjuncts), answers 401 when the exchange raises a grant or
authentication error, and answers 500 on any other adapter error. -/
theorem callback_error_paths (exchange : IdpTokens) (frontendURL : String) :
    (callbackGet exchange frontendURL Option.none =
      .json 400 [("error", "Missing code parameter")]) ∧
    (callbackGet exchange frontendURL (some "") =
      .json 400 [("error", "Missing code parameter")]) ∧
    (∀ c m, c ≠ "" → exchange c = .error (.keycloakPost m) →
      callbackGet exchange frontendURL (some c) =
        .json 401 [("detail", "Invalid grant or token.")]) ∧
    (∀ c m, c ≠ "" → exchange c = .error (.keycloakAuth m) →
      callbackGet exchange frontendURL (some c) =
        .json 401 [("detail", "Authentication failed.")]) ∧
    (∀ c e, c ≠ "" → exchange c = .error e →
      (∀ m, e ≠ PyExc.keycloakPost m) → (∀ m, e ≠ PyExc.keycloakAuth m) →
      (callbackGet exchange frontendURL (some c)).status = 500) := by
  refine ⟨rfl, rfl, ?_, ?_, ?_⟩
  · intro c m hc herr
    simp [callbackGet, hc, herr, handle_keycloak_error]
  · intro c m hc herr
    simp [callbackGet, hc, herr, handle_keycloak_error]
  · intro c e hc herr h1 h2
    simp only [callbackGet, hc, if_neg (by simpa using hc), herr]
    cases e
    case keycloakPost m => exact absurd rfl (h1 m)
    case keycloakAuth m => exact absurd rfl (h2 m)
    all_goals rfl

/-- Witness for C8 at concrete codes and a concrete adapter raising each
kind of error. -/
theorem callback_error_paths_w :
    callbackGet
      (fun c => if c = "p" then .error (.keycloakPost "bad grant")
        else if c = "a" then .error (.keycloakAuth "bad auth")
        else .error (.otherExc "boom"))
      "https://example.com" Option.none =
      .json 400 [("error", "Missing code parameter")] ∧
    callbackGet
      (fun c => if c = "p" then .error (.keycloakPost "bad grant")
        else if c = "a" then .error (.keycloakAuth "bad auth")
        else .error (.otherExc "boom"))
      "https://example.com" (some "") =
      .json 400 [("error", "Missing code parameter")] ∧
    callbackGet
      (fun c => if c = "p" then .error (.keycloakPost "bad grant")
        else if c = "a" then .error (.keycloakAuth "bad auth")
        else .error (.otherExc "boom"))
      "https://example.com" (some "p") =
      .json 401 [("detail", "Invalid grant or token.")] ∧
    callbackGet
      (fun c => if c = "p" then .error (.keycloakPost "bad grant")
        else if c = "a" then .error (.keycloakAuth "bad auth")
        else .error (.otherExc "boom"))
      "https://example.com" (some "a") =
      .json 401 [("detail", "Authentication failed.")] ∧
    (callbackGet
      (fun c => if c = "p" then .error (.keycloakPost "bad grant")
        else if c = "a" then .error (.keycloakAuth "bad auth")
        else .error (.otherExc "boom"))
      "https://example.com" (some "z")).status = 500 :=
  ⟨(callback_error_paths _ _).1,
   (callback_error_paths _ _).2.1,
   (callback_error_paths _ _).2.2.1 "p" "bad grant" (by decide) (by rfl),
   (callback_error_paths _ _).2.2.2.1 "a" "bad auth" (by decide) (by rfl),
   (callback_error_paths _ _).2.2.2.2 "z" (.otherExc "boom") (by decide) (by rfl)
     (fun m h => PyExc.noConfusion h) (fun m h => PyExc.noConfusion h)⟩

/-- C9 (amended): a well-formed logout body whose adapter call succeeds
answers status 204 — but with the detail body "User logged out
successfully." rather than no content; a malformed body answers 400 and a
grant error from the adapter answers 401. -/
theorem logout_responses_amended (idpLogout : IdpLogout)
    (body : List (String × PyVal)) :
    (∀ t, logoutValidate body = some t → idpLogout t = .ok () →
      logoutPost idpLogout body =
        .json 204 [("detail", "User logged out successfully.")]) ∧
    (logoutValidate body = Option.none →
      (logoutPost idpLogout body).status = 400) ∧
    (∀ t m, logoutValidate body = some t →
      idpLogout t = .error (.keycloakPost m) →
      logoutPost idpLogout body =
        .json 401 [("detail", "Invalid grant or token.")]) := by
  refine ⟨?_, ?_, ?_⟩
  · intro t hval hok
    simp [logoutPost, hval, hok]
  · intro hval
    simp [logoutPost, hval, HttpOut.status]
  · intro t m hval herr
    simp [logoutPost, hval, herr, handle_keycloak_error]

/-- Witness for C9's amended theorem at a concrete body and concrete
adapter outcomes. -/
theorem logout_responses_amended_w :
    logoutPost (fun _ => .ok ()) [("refresh_token", .str "rt1")] =
      .json 204 [("detail", "User logged out successfully.")] ∧
    (logoutPost (fun _ => .ok ()) [("other", .str "x")]).status = 400 ∧
    logoutPost (fun _ => .error (.keycloakPost "invalid_grant"))
      [("refresh_token", .str "rt1")] =
      .json 401 [("detail", "Invalid grant or token.")] :=
  ⟨(logout_responses_amended _ _).1 "rt1" (by rfl) (by rfl),
   (logout_responses_amended _ _).2.1 (by rfl),
   (logout_responses_amended _ _).2.2 "rt1" "invalid_grant" (by rfl) (by rfl)⟩

/-- C9 counterexample: a successful logout does answer 204, but the
response carries a non-empty detail body, refuting "no content". -/
theorem logout_204_carries_body :
    logoutPost (fun _ => .ok ()) [("refresh_token", .str "abc")] =
      .json 204 [("detail", "User logged out successfully.")] ∧
    ([("detail", "User logged out successfully.")] : List (String × String)) ≠ [] :=
  ⟨by rfl, by decide⟩

/-- C10: the profile-picture resolution is total — it answers the null
value when no row exists for the subject, when the row has no picture, or
when the picture has no URL, and the picture's URL otherwise, never
letting an exception escape. -/
theorem profile_picture_resolution_total (store : ProfileStore) (sub : String) :
    (store sub = Option.none → get_profile_picture store sub = .ok Option.none) ∧
    (∀ p, store sub = some p → p.profilePicture = Option.none →
      get_profile_picture store sub = .ok Option.none) ∧
    (∀ p pic, store sub = some p → p.profilePicture = some pic →
      pic.url = Option.none → get_profile_picture store sub = .ok Option.none) ∧
    (∀ p pic u, store sub = some p → p.profilePicture = some pic →
      pic.url = some u → get_profile_picture store sub = .ok (some u)) := by
  refine ⟨?_, ?_, ?_, ?_⟩
  · intro h
    simp [get_profile_picture, objectsGet, h]
  · intro p hp hpic
    simp [get_profile_picture, objectsGet, hp, hpic]
  · intro p pic hp hpic hurl
    simp [get_profile_picture, objectsGet, hp, hpic, hurl]
  · intro p pic u hp hpic hurl
    simp [get_profile_picture, objectsGet, hp, hpic, hurl]

/-- Witness for C10 at a concrete store exercising all four cases. -/
theorem profile_picture_resolution_total_w :
    get_profile_picture (fun _ => Option.none) "u0" = .ok Option.none ∧
    get_profile_picture (fun _ => some ⟨"u1", "e", Option.none, 0, 0⟩) "u1" =
      .ok Option.none ∧
    get_profile_picture (fun _ => some ⟨"u2", "e", some ⟨Option.none⟩, 0, 0⟩) "u2" =
      .ok Option.none ∧
    get_profile_picture (fun _ => some ⟨"u3", "e", some ⟨some "/media/p.png"⟩, 0, 0⟩)
      "u3" = .ok (some "/media/p.png") :=
  ⟨(profile_picture_resolution_total _ "u0").1 rfl,
   (profile_picture_resolution_total _ "u1").2.1 _ rfl rfl,
   (profile_picture_resolution_total _ "u2").2.2.1 _ ⟨Option.none⟩ rfl rfl rfl,
   (profile_picture_resolution_total _ "u3").2.2.2 _ ⟨some "/media/p.png"⟩
     "/media/p.png" rfl rfl rfl⟩

end KeycloakAuth
